import Mathlib

set_option maxHeartbeats 1000000

/- Shallow embedding of the moderation-filtering core of the repository:
   `bot/exts/filtering/_settings_types/infraction_and_notification.py`,
   `bot/exts/filtering/filtering.py`, `bot/exts/filtering/_filter_context.py`.
   Python's dynamically typed values at the loosely typed spots are modelled by
   `PyVal`; exceptions raised by the Python code are modelled by `Except PyError`.
   Durations (Python floats holding seconds) are modelled by `Int`; only order,
   zero-ness and addition of durations matter to the embedded code. -/

/-- Python exceptions the embedded code can raise. -/
inductive PyError
  | attributeError
  | typeError
  | keyError
deriving DecidableEq

/-- The `Infraction` enum. `auto()` assigns ascending values starting at 1;
the lower the value, the higher the infraction is in the hierarchy. -/
inductive Infraction
  | BAN
  | KICK
  | MUTE
  | VOICE_BAN
  | WARNING
  | WATCH
  | SUPERSTAR
  | NOTE
  | NONE
deriving DecidableEq

/-- `Infraction.value`: the `auto()`-assigned enum value. -/
def Infraction.value : Infraction → Nat
  | .BAN => 1
  | .KICK => 2
  | .MUTE => 3
  | .VOICE_BAN => 4
  | .WARNING => 5
  | .WATCH => 6
  | .SUPERSTAR => 7
  | .NOTE => 8
  | .NONE => 9

/-- `Infraction.name`: the Python enum member name. -/
def Infraction.name : Infraction → String
  | .BAN => "BAN"
  | .KICK => "KICK"
  | .MUTE => "MUTE"
  | .VOICE_BAN => "VOICE_BAN"
  | .WARNING => "WARNING"
  | .WATCH => "WATCH"
  | .SUPERSTAR => "SUPERSTAR"
  | .NOTE => "NOTE"
  | .NONE => "NONE"

/-- A dynamically typed Python value, as far as the embedded code needs:
strings, numbers (durations in seconds), `Infraction` enum members, and `None`. -/
inductive PyVal
  | str (s : String)
  | num (n : Int)
  | enum (i : Infraction)
  | none'
deriving DecidableEq

/-- Python truthiness of a `PyVal`. An empty string, zero, `None` are falsy;
`Infraction.__bool__` makes `Infraction.NONE` falsy. -/
def pyTruthy : PyVal → Bool
  | .str s => s ≠ ""
  | .num n => n ≠ 0
  | .enum i => i ≠ Infraction.NONE
  | .none' => false

/-- Python `==` between the modelled dynamic values: equality within one type,
`False` across types (a string never equals a number, `None` only equals `None`). -/
def pyEq : PyVal → PyVal → Bool
  | .str a, .str b => a = b
  | .num a, .num b => a = b
  | .enum a, .enum b => a = b
  | .none', .none' => true
  | _, _ => false

/-- Prefix a message with a bullet marker unless it already starts with one
(the two `startswith` checks inside `_merge_messages`). -/
def addBullet (m : String) : String :=
  if m.startsWith "•" then m else "• " ++ m

/-- `InfractionAndNotification._merge_messages`, translated over dynamic values.
Calling `.startswith` on a non-string raises `AttributeError`, which happens in
the source when a superstar duration is passed where a message is expected. -/
def merge_messages (message1 message2 : PyVal) : Except PyError PyVal :=
  if !pyTruthy message1 && !pyTruthy message2 then .ok (.str "")
  else if !pyTruthy message1 || pyEq message1 message2 then .ok message2
  else if !pyTruthy message2 then .ok message1
  else
    match message1, message2 with
    | .str s1, .str s2 => .ok (.str (addBullet s1 ++ "\n\n" ++ addBullet s2))
    | _, _ => .error .attributeError

/-- `_merge_messages` restricted to genuine strings, where it is total.
`merge_messages_str_str` below proves it agrees with the dynamic version. -/
def merge_messages_s (m1 m2 : String) : String :=
  if m1 = "" ∧ m2 = "" then ""
  else if m1 = "" ∨ m1 = m2 then m2
  else if m2 = "" then m1
  else addBullet m1 ++ "\n\n" ++ addBullet m2

/-- `InfractionAndNotification._merge_durations`: `None` (permanent) wins,
otherwise the larger duration. -/
def merge_durations : Option Int → Option Int → Option Int
  | none, _ => none
  | _, none => none
  | some d1, some d2 => some (max d1 d2)

/-- View an optional duration as the dynamic value stored in a superstar tuple. -/
def durPy : Option Int → PyVal
  | none => .none'
  | some n => .num n

theorem merge_messages_str_str (a b : String) :
    merge_messages (.str a) (.str b) = .ok (.str (merge_messages_s a b)) := by
  by_cases h1 : a = "" <;> by_cases h2 : b = "" <;> by_cases h3 : a = b <;>
    simp [merge_messages, merge_messages_s, pyTruthy, pyEq, h1, h2, h3]

/-- Raw entry data as handed to `InfractionAndNotification.__init__`: the dict
keys the constructor reads. The `infraction_type` key holds whatever was stored
there — a string from configuration or from `__or__`'s different-types branch,
but an `Infraction` enum member from `__or__`'s equal-types branch. -/
structure EntryData where
  infraction_type : PyVal
  infraction_reason : String
  infraction_duration : Option Int
  dm_content : String
  dm_embed : String
  superstar : Option (PyVal × Option Int)
deriving DecidableEq

/-- The `InfractionAndNotification` settings entry after construction.
`superstar` models the `_superstar` tuple `(reason, duration)`; its reason slot
is dynamically typed because `__or__` can store a non-string there. -/
structure InfractionAndNotification where
  infraction_type : Infraction
  infraction_reason : String
  infraction_duration : Option Int
  dm_content : String
  dm_embed : String
  superstar : Option (PyVal × Option Int)
deriving DecidableEq

/-- Python `str.replace(" ", "_")` for the single-character pattern used by the
constructor: replace every space with an underscore. -/
def replaceSpaces (s : String) : String :=
  String.mk (s.data.map (fun c => if c = ' ' then '_' else c))

/-- Python `str.upper()` on the ASCII names involved. -/
def asciiUpper (s : String) : String :=
  String.mk (s.data.map Char.toUpper)

/-- Python `str.lower()` on the ASCII names involved. -/
def asciiLower (s : String) : String :=
  String.mk (s.data.map Char.toLower)

/-- `Infraction[key]` lookup by member name; an unknown key raises `KeyError`. -/
def Infraction.fromKey : String → Except PyError Infraction
  | "BAN" => .ok .BAN
  | "KICK" => .ok .KICK
  | "MUTE" => .ok .MUTE
  | "VOICE_BAN" => .ok .VOICE_BAN
  | "WARNING" => .ok .WARNING
  | "WATCH" => .ok .WATCH
  | "SUPERSTAR" => .ok .SUPERSTAR
  | "NOTE" => .ok .NOTE
  | "NONE" => .ok .NONE
  | _ => .error .keyError

/-- `InfractionAndNotification.__init__`. When `entry_data["infraction_type"]`
is truthy the source calls `.replace(" ", "_").upper()` on it and indexes the
enum; calling the string method on a non-string value (such as the `Infraction`
member stored by `__or__`'s equal-types branch) raises `AttributeError`.
A falsy value yields `Infraction.NONE`. The remaining keys are stored as-is
(`float()` on a duration is the identity in this model). -/
def InfractionAndNotification.init (entry_data : EntryData) :
    Except PyError InfractionAndNotification := do
  let ty ←
    if pyTruthy entry_data.infraction_type then
      match entry_data.infraction_type with
      | .str s => Infraction.fromKey (asciiUpper (replaceSpaces s))
      | _ => .error .attributeError
    else
      pure Infraction.NONE
  pure { infraction_type := ty
         infraction_reason := entry_data.infraction_reason
         infraction_duration := entry_data.infraction_duration
         dm_content := entry_data.dm_content
         dm_embed := entry_data.dm_embed
         superstar := entry_data.superstar }

/-- Modelled from the spec: `ActionEntry.to_dict` lives in
`_settings_types/settings_entry.py`, which is not among the analyzed sources.
Per the data model an entry's configuration data consists of its fields, so
`to_dict` returns them keyed as the constructor expects, with the infraction
type under its member name. -/
def InfractionAndNotification.to_dict (e : InfractionAndNotification) : EntryData :=
  { infraction_type := .str e.infraction_type.name
    infraction_reason := e.infraction_reason
    infraction_duration := e.infraction_duration
    dm_content := e.dm_content
    dm_embed := e.dm_embed
    superstar := e.superstar }

/-- `InfractionAndNotification.__or__`, the merge of two entries of this kind.
Branches follow the source: NONE identity short-circuits; "two different
infractions, one of them a superstarify" folds superstar data and rebuilds from
`to_dict`; otherwise the severity / equal-type merge builds fresh entry data.
Attribute access `superstar.infraction_reason` on a tuple or `None` raises
`AttributeError`; subscripting `None` (`superstar[0]`) raises `TypeError`. -/
def InfractionAndNotification.or_ (self other : InfractionAndNotification) :
    Except PyError InfractionAndNotification :=
  if self.infraction_type = Infraction.NONE then .ok other
  else if other.infraction_type = Infraction.NONE then .ok self
  else if self.infraction_type ≠ other.infraction_type ∧
      (self.infraction_type.name = "SUPERSTAR" ∨ other.infraction_type.name = "SUPERSTAR") then
    let superstar := if self.infraction_type.name = "SUPERSTAR"
                     then self.superstar else other.superstar
    -- a present `_superstar` tuple is always truthy
    let other_superstar := if self.superstar.isSome then self.superstar else other.superstar
    let other_type := if self.infraction_type.name ≠ "SUPERSTAR" then self else other
    let entry_data := other_type.to_dict
    match other_superstar with
    | some os =>
      -- the source indexes `superstar[0]` / `superstar[1]` here
      match superstar with
      | some s => do
        let m ← merge_messages s.1 os.1
        InfractionAndNotification.init
          { entry_data with superstar := some (m, merge_durations s.2 os.2) }
      | none => .error .typeError
    | none =>
      -- `superstar.infraction_reason` on a tuple or on `None`
      .error .attributeError
  else
    let tyDur : PyVal × Option Int :=
      if self.infraction_type ≠ other.infraction_type then
        -- a higher enum value is lower in the hierarchy
        let higher := if self.infraction_type.value > other.infraction_type.value
                      then other else self
        (.str higher.infraction_type.name, higher.infraction_duration)
      else
        (.enum self.infraction_type,
         merge_durations self.infraction_duration other.infraction_duration)
    do
      let sup ←
        match self.superstar, other.superstar with
        | none, o => pure o
        | some s, none => pure (some s)
        | some s, some o => do
          -- the source merges `self._superstar[0]` with `other._superstar[1]`
          let m ← merge_messages s.1 (durPy o.2)
          pure (some (m, merge_durations s.2 o.2))
      InfractionAndNotification.init
        { infraction_type := tyDur.1
          infraction_duration := tyDur.2
          infraction_reason := merge_messages_s self.infraction_reason other.infraction_reason
          dm_content := merge_messages_s self.dm_content other.dm_content
          dm_embed := merge_messages_s self.dm_embed other.dm_embed
          superstar := sup }

/-- The `FilterContext` dataclass, restricted to the fields the embedded code
reads or writes. `dm_embed_description` models `ctx.dm_embed.description`
(the `Embed()` default empty description is modelled as `""`, which
`_merge_messages` treats identically to Python `None`); `dm_embed_colour_set`
models whether `ctx.dm_embed.colour` is set. -/
structure FilterContext where
  author_bot : Bool := false
  author_mention : String := ""
  channel_has_guild : Bool := true
  content : String := ""
  dm_content : String := ""
  dm_embed_description : String := ""
  dm_embed_colour_set : Bool := false
  send_alert : Bool := true
  alert_content : String := ""
  action_descriptions : List String := []
deriving DecidableEq

/-- Requests issued to the platform collaborators during `action`:
`ctx.author.send`, `ctx.channel.send`, and `msg_ctx.invoke` of a moderation
command (with its expiry timestamp, reason, and whether the invoking context's
channel was redirected to the mod-alerts channel). -/
inductive Effect
  | authorSend (content : String) (embedDescription : String)
  | channelSend (content : String) (embedDescription : String)
  | invoke (command : String) (expiry : Int) (reason : PyVal) (inModAlerts : Bool)
deriving DecidableEq

/-- `InfractionAndNotification.action(ctx)`. `dm_forbidden` models
`ctx.author.send` raising `Forbidden`; `now` models `arrow.utcnow()` as a
timestamp in seconds, so an expiry is `now + seconds`. Python's
`timedelta(seconds=None)` raises `TypeError`, which the source hits whenever a
superstar or infraction duration is absent. Returns the updated context and
the platform requests in order. -/
def InfractionAndNotification.action (self : InfractionAndNotification)
    (ctx : FilterContext) (dm_forbidden : Bool) (now : Int) :
    Except PyError (FilterContext × List Effect) := do
  let dm_content := merge_messages_s ctx.dm_content self.dm_content
  let dm_embed := merge_messages_s ctx.dm_embed_description self.dm_embed
  let (ctx, effects) :=
    if dm_content ≠ "" ∨ dm_embed ≠ "" then
      let dm_content := "Hey " ++ ctx.author_mention ++ "!\n" ++ dm_content
      let ctx := { ctx with dm_embed_description := dm_embed, dm_embed_colour_set := true }
      -- on Forbidden the source falls back to `ctx.channel.send(ctx.dm_content, ...)`,
      -- the context's dm_content field, not the composed `dm_content` local
      let eff := if dm_forbidden
                 then Effect.channelSend ctx.dm_content ctx.dm_embed_description
                 else Effect.authorSend dm_content ctx.dm_embed_description
      ({ ctx with action_descriptions := ctx.action_descriptions ++ ["notified"] }, [eff])
    else (ctx, [])
  let (ctx, effects) ←
    match self.superstar with
    | some s =>
      match s.2 with
      | none => Except.error PyError.typeError
      | some secs =>
        pure ({ ctx with action_descriptions := ctx.action_descriptions ++ ["superstarred"] },
              effects ++ [Effect.invoke "superstar" (now + secs) s.1 false])
    | none => pure (ctx, effects)
  if self.infraction_type ≠ Infraction.NONE then
    match self.infraction_duration with
    | none => Except.error PyError.typeError
    | some secs =>
      let toModAlerts := self.infraction_type == Infraction.BAN || !ctx.channel_has_guild
      pure ({ ctx with action_descriptions :=
                ctx.action_descriptions ++ [asciiLower self.infraction_type.name] },
            effects ++ [Effect.invoke self.infraction_type.name (now + secs)
                          (.str self.infraction_reason) toModAlerts])
  else
    pure (ctx, effects)

/-- A matched rule as `_send_alert` and `on_message` see it: an id, the matched
content, an optional description, and its actions. The shipped `ActionSet`
contains the single `InfractionAndNotification` entry kind, so `actions` is
modelled as that entry. -/
structure MatchedFilter where
  id : Nat
  content : String
  description : String
  actions : InfractionAndNotification
deriving DecidableEq

/-- `functools.reduce(operator.or_, entries)` without an initial value:
reducing an empty iterable raises `TypeError`. -/
def reduce_or : List InfractionAndNotification →
    Except PyError InfractionAndNotification
  | [] => .error .typeError
  | a :: rest => rest.foldlM InfractionAndNotification.or_ a

/-- Outcome of one `Filtering.on_message` dispatch. -/
inductive DispatchOutcome
  | skippedBot
  | noSubscriptions
  | raised (e : PyError)
  | completed (ctx : FilterContext) (effects : List Effect) (alerted : Bool)
deriving DecidableEq

/-- `Filtering.on_message`. `subscribed` holds, per filter list subscribed to
`Event.MESSAGE` and in subscription order, the list of filters its
`triggers_for(ctx)` returned, mirroring the `triggered` dict. The dict is
truthy whenever at least one filter list is subscribed, even if every value is
an empty list, in which case `reduce` over the flattened (empty) actions raises
`TypeError`. On success the merged entry is applied and `_send_alert` runs iff
`ctx.send_alert` is still true. -/
def on_message (subscribed : List (List MatchedFilter)) (ctx : FilterContext)
    (dm_forbidden : Bool) (now : Int) : DispatchOutcome :=
  if ctx.author_bot then .skippedBot
  else if subscribed.isEmpty then .noSubscriptions
  else
    match reduce_or (subscribed.flatten.map MatchedFilter.actions) with
    | .error e => .raised e
    | .ok merged =>
      match merged.action ctx dm_forbidden now with
      | .error e => .raised e
      | .ok (ctx', effs) => .completed ctx' effs ctx'.send_alert

/-- The alert-body truncation of `Filtering._send_alert`: Python
`embed_content[:4000] + " [...]"` when the composed body exceeds 4000
characters, otherwise the body unchanged. Python slicing counts characters,
i.e. it takes a prefix of `data`. -/
def truncate_alert (body : String) : String :=
  if body.length > 4000 then String.mk (body.data.take 4000) ++ " [...]" else body

/- Concrete entries and contexts used by the claim theorems below. -/

/-- A NONE-typed entry with every other field empty. -/
def noneEmpty : InfractionAndNotification :=
  { infraction_type := .NONE, infraction_reason := "", infraction_duration := none,
    dm_content := "", dm_embed := "", superstar := none }

/-- A NONE-typed entry that still carries DM content (a notification-only rule). -/
def noneWithDm : InfractionAndNotification :=
  { noneEmpty with dm_content := "please stop" }

/-- A MUTE entry. -/
def muteA : InfractionAndNotification :=
  { infraction_type := .MUTE, infraction_reason := "spam", infraction_duration := some 60,
    dm_content := "", dm_embed := "", superstar := none }

/-- A second MUTE entry with a different reason and duration. -/
def muteB : InfractionAndNotification :=
  { muteA with infraction_reason := "ads", infraction_duration := some 30 }

/-- A third MUTE entry. -/
def muteC : InfractionAndNotification :=
  { muteA with infraction_reason := "links", infraction_duration := some 90 }

/-- A WARNING entry. -/
def warnE : InfractionAndNotification :=
  { infraction_type := .WARNING, infraction_reason := "w", infraction_duration := some 60,
    dm_content := "", dm_embed := "", superstar := none }

/-- A BAN entry with a 5 second duration. -/
def ban5 : InfractionAndNotification :=
  { infraction_type := .BAN, infraction_reason := "b", infraction_duration := some 5,
    dm_content := "", dm_embed := "", superstar := none }

/-- A BAN entry with a 10 second duration. -/
def ban10 : InfractionAndNotification :=
  { ban5 with infraction_reason := "b2", infraction_duration := some 10 }

/-- An entry whose primary infraction is SUPERSTAR, with no embedded superstar
(the normal shape for a rule configured to superstarify). -/
def supStarE : InfractionAndNotification :=
  { infraction_type := .SUPERSTAR, infraction_reason := "nick", infraction_duration := some 600,
    dm_content := "", dm_embed := "", superstar := none }

/-- A BAN entry carrying an embedded superstar. -/
def banWithSup : InfractionAndNotification :=
  { ban5 with superstar := some (.str "sup1", some 10) }

/-- A MUTE entry carrying an embedded superstar. -/
def muteWithSup : InfractionAndNotification :=
  { muteA with superstar := some (.str "sup2", some 20) }

/-- A context whose author mention is known, all accumulators at their defaults. -/
def ctxUser : FilterContext := { author_mention := "@user" }

/-- A notification-only entry whose DM content is non-empty. -/
def dmEntry : InfractionAndNotification :=
  { infraction_type := .NONE, infraction_reason := "", infraction_duration := none,
    dm_content := "do not spam", dm_embed := "", superstar := none }

/-- `ctxUser` after the notification step of `action` ran. -/
def ctxNotified : FilterContext :=
  { ctxUser with dm_embed_colour_set := true, action_descriptions := ["notified"] }

/-- A WARNING entry with an absent (permanent) duration. -/
def warnPermanent : InfractionAndNotification :=
  { infraction_type := .WARNING, infraction_reason := "spam", infraction_duration := none,
    dm_content := "", dm_embed := "", superstar := none }

/-- The same WARNING entry with a 60 second duration. -/
def warnTimed : InfractionAndNotification :=
  { warnPermanent with infraction_duration := some 60 }

/-- An alert body of 4001 characters. -/
def longBody : String := String.mk (List.replicate 4001 'a')

/-- C1: with at least one filter list subscribed to MESSAGE and every
`triggers_for` returning an empty list, the claim says the dispatch terminates
with zero side effects and zero alerts; instead the `triggered` dict is truthy,
`reduce` runs on an empty iterable and `on_message` raises `TypeError`. Only
when no filter list is subscribed at all does the dispatch end cleanly. -/
theorem c1_zero_matches_raises :
    on_message [[]] {} false 0 = .raised .typeError ∧
    on_message [[], []] {} false 0 = .raised .typeError ∧
    on_message [] {} false 0 = .noSubscriptions := ⟨rfl, rfl, rfl⟩

/-- C2 counterexample: for the NONE-typed entry `X = noneWithDm` (which carries
DM content) and the NONE-typed `N = noneEmpty`, `combine(X, N)` returns `N`,
not `X`, so NONE is not a two-sided identity for every entry. -/
theorem c2_counterexample :
    noneWithDm.or_ noneEmpty = .ok noneEmpty ∧
    noneWithDm.or_ noneEmpty ≠ .ok noneWithDm := by
  refine ⟨rfl, ?_⟩
  intro h
  have := Except.ok.inj h
  exact absurd (congrArg InfractionAndNotification.dm_content this) (by decide)

/-- C2 (amended): `combine(N, X) = X` for every `X` whenever `N` has infraction
type NONE; `combine(X, N) = X` additionally requires `X`'s type not to be NONE —
when both types are NONE the merge returns the right operand `N` instead. -/
theorem c2_none_identity (X N : InfractionAndNotification)
    (hN : N.infraction_type = Infraction.NONE) :
    N.or_ X = .ok X ∧
    (X.infraction_type ≠ Infraction.NONE → X.or_ N = .ok X) ∧
    (X.infraction_type = Infraction.NONE → X.or_ N = .ok N) := by
  refine ⟨?_, fun hX => ?_, fun hX => ?_⟩
  · simp [InfractionAndNotification.or_, hN]
  · simp [InfractionAndNotification.or_, hN, hX]
  · simp [InfractionAndNotification.or_, hX]

/-- Witness for the amended C2 at concrete entries. -/
theorem c2_none_identity_witness :
    noneEmpty.or_ warnE = .ok warnE ∧
    warnE.or_ noneEmpty = .ok warnE ∧
    noneWithDm.or_ noneEmpty = .ok noneEmpty := by
  refine ⟨(c2_none_identity warnE noneEmpty (by decide)).1,
          (c2_none_identity warnE noneEmpty (by decide)).2.1 (by decide),
          (c2_none_identity noneWithDm noneEmpty ?_).2.2 ?_⟩ <;> decide

/-- C3: associativity cannot hold for all SUPERSTAR-free triples, because
merging two entries with the same non-NONE infraction type already raises:
the equal-types branch stores the `Infraction` member itself in the entry data
and the constructor calls the string method `replace` on it (`AttributeError`).
For the triple `muteA, muteB, muteC` both association orders raise. -/
theorem c3_same_type_merge_raises :
    (muteA.or_ muteB >>= fun ab => ab.or_ muteC) = .error .attributeError ∧
    (muteB.or_ muteC >>= fun bc => muteA.or_ bc) = .error .attributeError :=
  ⟨rfl, rfl⟩

/-- C4: combining WARNING with BAN does yield primary infraction BAN in both
orders (lower enum value wins), but combining two BAN entries raises
`AttributeError` instead of yielding BAN with the maximum duration, because the
equal-types branch stores the enum member where the constructor expects a
string. -/
theorem c4_severity_and_ban_ban :
    (warnE.or_ ban5).map InfractionAndNotification.infraction_type = .ok Infraction.BAN ∧
    (ban5.or_ warnE).map InfractionAndNotification.infraction_type = .ok Infraction.BAN ∧
    ban5.or_ ban10 = .error .attributeError :=
  ⟨rfl, rfl, rfl⟩

/-- C5: merging a SUPERSTAR-typed entry with a MUTE entry raises in both
orders. The SUPERSTAR branch reads the SUPERSTAR side's *embedded*
`_superstar` field (which is `None` for a plain SUPERSTAR rule) instead of its
primary reason/duration, and then evaluates `superstar.infraction_reason`,
raising `AttributeError`; nothing is folded into the result. -/
theorem c5_superstar_merge_raises :
    supStarE.or_ muteA = .error .attributeError ∧
    muteA.or_ supStarE = .error .attributeError :=
  ⟨rfl, rfl⟩

/-- C6: when only one side carries an embedded superstar it is preserved
unchanged, as the claim says; but when both sides carry one, the source merges
the first reason with the second *duration* (`other._superstar[1]` instead of
`[0]`), so `startswith` runs on a number and the merge raises `AttributeError`
instead of producing the merged reason and duration. -/
theorem c6_embedded_superstar :
    (banWithSup.or_ muteA).map InfractionAndNotification.superstar =
      .ok (some (.str "sup1", some 10)) ∧
    (ban5.or_ muteWithSup).map InfractionAndNotification.superstar =
      .ok (some (.str "sup2", some 20)) ∧
    banWithSup.or_ muteWithSup = .error .attributeError :=
  ⟨rfl, rfl, rfl⟩

/-- C7: on strings, `_merge_messages` returns empty iff both inputs are empty,
returns the non-empty side when exactly one is empty or the two are identical,
and otherwise concatenates the two as bullet points separated by a blank line,
prefixing a bullet marker where missing; in particular merging "foo" and "bar"
yields a body containing both, each preceded by a bullet marker. -/
theorem c7_merge_messages_cases (m1 m2 : String) :
    merge_messages (.str m1) (.str m2) = .ok (.str (
      if m1 = "" ∧ m2 = "" then ""
      else if m1 = "" ∨ m1 = m2 then m2
      else if m2 = "" then m1
      else addBullet m1 ++ "\n\n" ++ addBullet m2)) ∧
    merge_messages (.str "foo") (.str "bar") = .ok (.str "• foo\n\n• bar") ∧
    ("• foo").data <:+: ("• foo\n\n• bar").data ∧
    ("• bar").data <:+: ("• foo\n\n• bar").data := by
  refine ⟨?_, rfl, ?_, ?_⟩
  · rw [merge_messages_str_str]
    rfl
  · exact ⟨[], ("\n\n• bar").data, by decide⟩
  · exact ⟨("• foo\n\n").data, [], by decide⟩

/-- C8: when the actor blocks DMs during `action`, the fallback posts to the
channel and "notified" is still recorded — but the posted content is the
context's stale `dm_content` field (empty here), not the composed text
"Hey @user!\ndo not spam" the DM would have carried, contradicting the
same-content part of the claim. -/
theorem c8_dm_fallback :
    dmEntry.action ctxUser false 0 =
      .ok (ctxNotified, [.authorSend "Hey @user!\ndo not spam" ""]) ∧
    dmEntry.action ctxUser true 0 =
      .ok (ctxNotified, [.channelSend "" ""]) ∧
    ("" : String) ≠ "Hey @user!\ndo not spam" :=
  ⟨rfl, rfl, by decide⟩

/-- C9: the composed alert body is emitted unchanged when it has at most 4000
characters; a longer body is cut to its first 4000 characters plus the
" [...]" marker, and the emitted body never exceeds 4006 characters. -/
theorem c9_truncation (s : String) :
    (truncate_alert s).length ≤ 4006 ∧
    (s.length ≤ 4000 → truncate_alert s = s) ∧
    (s.length > 4000 →
      truncate_alert s = String.mk (s.data.take 4000) ++ " [...]" ∧
      (truncate_alert s).length = 4006) := by
  have hsd : s.length = s.data.length := rfl
  have hm : (" [...]" : String).length = 6 := rfl
  by_cases h : s.length > 4000
  · have hlen : (String.mk (s.data.take 4000) ++ " [...]").length = 4006 := by
      rw [String.length_append, String.length_mk, List.length_take, hm,
          Nat.min_eq_left (by omega)]
    have ht : truncate_alert s = String.mk (s.data.take 4000) ++ " [...]" := by
      unfold truncate_alert
      rw [if_pos h]
    refine ⟨?_, fun hle => absurd h (by omega), fun _ => ⟨ht, ?_⟩⟩
    · rw [ht, hlen]
    · rw [ht, hlen]
  · have ht : truncate_alert s = s := by
      unfold truncate_alert
      rw [if_neg h]
    exact ⟨by rw [ht]; omega, fun _ => ht, fun hgt => absurd hgt h⟩

/-- Witness for C9 at a short and a long concrete body. -/
theorem c9_truncation_witness :
    truncate_alert "short alert" = "short alert" ∧
    (truncate_alert longBody).length = 4006 := by
  have hlong : longBody.length > 4000 := by
    have h1 : longBody.length = (List.replicate 4001 'a').length := rfl
    rw [h1, List.length_replicate]
    omega
  exact ⟨(c9_truncation "short alert").2.1 (by decide),
         ((c9_truncation longBody).2.2 hlong).2⟩

/-- C10: applying an entry with a non-NONE infraction and a finite duration
requests the infraction command with the stored reason and expiry; but with an
absent (permanent) duration the source evaluates `timedelta(seconds=None)` and
raises `TypeError`, so the apply step is not well-defined for permanent
infractions, contradicting the claim. -/
theorem c10_permanent_duration_raises :
    warnPermanent.action {} false 0 = .error .typeError ∧
    warnTimed.action {} false 0 =
      .ok ({ action_descriptions := ["warning"] },
           [.invoke "WARNING" 60 (.str "spam") false]) :=
  ⟨rfl, rfl⟩
